import Mathlib

/-!
Shallow embedding of the REAgent client (`src/app/static/js/app.js`).

The embedding models the session / view-state synchronization engine of the
`REAgentApp` class: session identity (`getOrCreateSessionId`), the chat send
path (`sendMessage`, split at its single suspension point into `sendStart`
and the two completion handlers `sendCompleteSuccess` / `sendCompleteFailure`),
store updates (`updateRecommendations`, `updatePreferencesDisplay`,
`loadPreferences`), price formatting (`formatPrice`), detail lookup
(`showPropertyDetails`) and session reset (`clearChat`).

Modelling conventions:
- DOM state that the claims observe is carried in `AppState`
  (transcript `messages`, the recommendation count badge, the preference
  panel `displayedPreferences`); purely cosmetic markup is dropped.
- JS `undefined`-able fields become `Option`; the JS `||` fallback on
  possibly-empty strings is `jsOr` (the empty string is falsy in JS).
- Network effects are explicit: `sendStart` returns the issued request
  (`none` = no request), completion handlers take the parsed response,
  `clearChat` takes the DELETE outcome as a boolean, and the preference
  refresh GET of `loadPreferences` is reported as a boolean effect flag.
- Prices are naturals. JS `Number.prototype.toFixed` rounds to the nearest
  representand, ties away from zero; at the thousands tier the quotient
  `price/1000` is exact at every tie (dyadic), so `(price + 500) / 1000` in
  natural division is its exact value, and the millions tier adopts the same
  idealized rounding `(price + 50000) / 100000`.
- Floating relevance/confidence scores are not observed by any claim and are
  omitted from the records.
-/

namespace REAgent

/-- Message roles, the `sender` argument of `addMessageToChat` (app.js:138). -/
inductive Role
  | user
  | agent
deriving DecidableEq, Repr

/-- One transcript entry. `isWelcome` mirrors the `welcome-message` CSS class
that `addMessageToChat` (app.js:167) uses to find and remove the welcome
bubble on the first user message. -/
structure Msg where
  role : Role
  text : String
  isWelcome : Bool
deriving DecidableEq, Repr

/-- The property-shaped fields the client reads off a recommendation payload
(app.js:211-238, 384-420). -/
structure Property where
  external_id : Option String
  id : Option String
  title : Option String
  location : String
  price : Option Nat
  bedrooms : Option Nat
  property_type : Option String
  platform : Option String
deriving DecidableEq, Repr

/-- A property value with every optional field absent. -/
def emptyProperty : Property :=
  ⟨none, none, none, "", none, none, none, none⟩

/-- A recommendation object from the chat response. In JS it either carries a
nested `property` object or is itself property-shaped (`rec.property || rec`,
app.js:212); `property` is the nested object when present and `flat` holds the
property-shaped fields of the recommendation object itself. -/
structure Recommendation where
  property : Option Property
  flat : Property
deriving DecidableEq, Repr

/-- One learned preference record (app.js:289-305). The float confidence is
abstracted to an integer percentage. -/
structure Preference where
  value : String
  confidencePercent : Nat
  is_explicit : Bool
deriving DecidableEq, Repr

/-- The request body of POST `/api/chat/message` (app.js:103-106). -/
structure ChatRequest where
  message : String
  session_id : String
deriving DecidableEq, Repr

/-- The fields of the chat response consumed by `sendMessage`
(app.js:119-129). `extracted_preferences` is an opaque array whose contents
are never inspected, only its presence and length. -/
structure ChatResponse where
  response : String
  recommendations : Option (List Recommendation)
  extracted_preferences : Option (List String)
deriving DecidableEq, Repr

/-- The client state of `REAgentApp`: its fields (app.js:4-7), the
`localStorage` cell holding `reagent_session_id`, and the DOM state the
claims observe (transcript, recommendation count badge, preference panel,
chat input value). -/
structure AppState where
  sessionId : String
  localStore : Option String
  isLoading : Bool
  currentRecommendations : List Recommendation
  currentPreferences : List (String × Preference)
  displayedPreferences : List (String × Preference)
  recCountBadge : Nat
  messages : List Msg
  inputValue : String
deriving DecidableEq, Repr

/-- JS `a || b` on two possibly-absent strings: `undefined` and `""` are
falsy. -/
def jsOr : Option String → Option String → Option String
  | some s, b => if s = "" then b else some s
  | none, b => b

/-- JS `String.prototype.trim`: strip whitespace from both ends
(app.js:86). -/
def jsTrim (s : String) : String :=
  String.mk (((s.toList.dropWhile Char.isWhitespace).reverse.dropWhile
    Char.isWhitespace).reverse)

/-- The function `getOrCreateSessionId` (app.js:14-21) over an explicit
`localStorage` cell: return the stored id if present, otherwise persist and
return the freshly synthesized id supplied by the environment
(`Date.now` and the random suffix). Returns the id and the updated cell. -/
def getOrCreateSessionId (store : Option String) (fresh : String) :
    String × Option String :=
  match store with
  | some sid => (sid, some sid)
  | none => (fresh, some fresh)

/-- The identifier synthesized at app.js:17: the literal prefix `session_`,
then `Date.now()`, an underscore, and a random base-36 suffix. -/
def mkSessionId (now : Nat) (rand : String) : String :=
  "session_" ++ toString now ++ "_" ++ rand

/-- Remove the first transcript entry carrying the `welcome-message` class
(the `querySelector` removal at app.js:168). -/
def removeFirstWelcome : List Msg → List Msg
  | [] => []
  | m :: rest => if m.isWelcome then rest else m :: removeFirstWelcome rest

/-- `addMessageToChat` (app.js:138-170): append the message; when the sender
is the user, remove the welcome bubble if one is present. -/
def addMessageToChat (messages : List Msg) (m : Msg) : List Msg :=
  let appended := messages ++ [m]
  if m.role = Role.user then removeFirstWelcome appended else appended

/-- `updateRecommendations` (app.js:192-242): overwrite
`currentRecommendations` and set the count badge to the new length (the card
markup itself is view-only; the dataset id of each card is `displayedId` below). -/
def updateRecommendations (st : AppState) (recs : List Recommendation) :
    AppState :=
  { st with currentRecommendations := recs, recCountBadge := recs.length }

/-- `updatePreferencesDisplay` (app.js:274-309): overwrite the preference
panel only; `currentPreferences` is not touched here. -/
def updatePreferencesDisplay (st : AppState)
    (preferences : List (String × Preference)) : AppState :=
  { st with displayedPreferences := preferences }

/-- `loadPreferences` (app.js:257-272): on a successful GET of
`/api/preferences/{session_id}` store and display the fetched map; on
transport failure only log, leaving both untouched. -/
def loadPreferences (st : AppState)
    (result : Option (List (String × Preference))) : AppState :=
  match result with
  | some prefs =>
      updatePreferencesDisplay { st with currentPreferences := prefs } prefs
  | none => st

/-- `rec.property || rec` (app.js:212, 390): the nested property object when
present, else the recommendation object itself. -/
def propOf (r : Recommendation) : Property :=
  r.property.getD r.flat

/-- The id written into the dataset of each card by `updateRecommendations`
(app.js:215): `property.external_id || property.id` on `rec.property || rec`.
This is the identifier displayed for (and clicked on) the card. -/
def displayedId (r : Recommendation) : Option String :=
  jsOr (propOf r).external_id (propOf r).id

/-- The key tested by the lookup in `showPropertyDetails` (app.js:384-386):
`rec.property?.external_id || rec.property?.id` — note it reads only the
nested `property` object and never falls back to the recommendation itself. -/
def lookupKey (r : Recommendation) : Option String :=
  jsOr (r.property.bind Property.external_id) (r.property.bind Property.id)

/-- The `find` call of `showPropertyDetails` (app.js:384-386): linear search
of the current recommendation list for a matching lookup key. -/
def findById (recs : List Recommendation) (propertyId : String) :
    Option Recommendation :=
  recs.find? (fun r => lookupKey r == some propertyId)

/-- `showPropertyDetails` (app.js:382-461): resolve the clicked id against
`currentRecommendations`; `none` means the early return is taken and the
property modal is never opened, `some r` means the modal is populated from
`r` and shown. -/
def showPropertyDetails (st : AppState) (propertyId : String) :
    Option Recommendation :=
  findById st.currentRecommendations propertyId

/-- `formatPrice` (app.js:244-254). A falsy price (absent or `0`) gives the
`POA` sentinel; at least a million gives one decimal and an `M` suffix via
`toFixed(1)`; at least a thousand gives `toFixed(0)` thousands and a `k`
suffix; otherwise the literal amount. `toFixed` is modelled as round-half-up
on the exact rational (see the header note on rounding). -/
def formatPrice : Option Nat → String
  | none => "POA"
  | some price =>
    if price = 0 then "POA"
    else if 1000000 ≤ price then
      "£" ++ toString ((price + 50000) / 100000 / 10) ++ "." ++
        toString ((price + 50000) / 100000 % 10) ++ "M"
    else if 1000 ≤ price then
      "£" ++ toString ((price + 500) / 1000) ++ "k"
    else
      "£" ++ toString price

/-- The fixed apology appended on a failed send (app.js:134). -/
def apologyText : String := "Sorry, I encountered an error. Please try again."

/-- The canonical welcome bubble re-seeded by `clearChat` (app.js:515-539);
its HTML body is abstracted to a text marker, its `welcome-message` class to
the `isWelcome` flag. -/
def welcomeMessage : Msg := ⟨Role.agent, "REAgent welcome", true⟩

/-- The synchronous prefix of `sendMessage` (app.js:84-107), up to its first
suspension point (the `fetch`): trim the input; if the trimmed message is
empty or a send is already in flight, return unchanged with no request;
otherwise append the user message, clear the input, set the single-flight
flag (`showTypingIndicator`, app.js:179-183) and issue the POST carrying the
current session id. -/
def sendStart (st : AppState) : AppState × Option ChatRequest :=
  let message := jsTrim st.inputValue
  if message = "" ∨ st.isLoading then (st, none)
  else
    ({ st with
        messages := addMessageToChat st.messages ⟨Role.user, message, false⟩,
        inputValue := "",
        isLoading := true },
      some ⟨message, st.sessionId⟩)

/-- The success continuation of `sendMessage` (app.js:113-129): clear the
single-flight flag (`hideTypingIndicator`), append the agent reply, replace
the recommendation store only when `data.recommendations` is present and
non-empty, and report whether a preference refresh GET is triggered
(`data.extracted_preferences` present and non-empty). -/
def sendCompleteSuccess (st : AppState) (data : ChatResponse) :
    AppState × Bool :=
  let stMsg := { st with
    isLoading := false,
    messages := addMessageToChat st.messages ⟨Role.agent, data.response, false⟩ }
  let stRec :=
    match data.recommendations with
    | some recs =>
        if 0 < recs.length then updateRecommendations stMsg recs else stMsg
    | none => stMsg
  (stRec,
    match data.extracted_preferences with
    | some ps => decide (0 < ps.length)
    | none => false)

/-- The catch branch of `sendMessage` (app.js:131-135): clear the
single-flight flag and append the fixed apology agent message; nothing else
changes. -/
def sendCompleteFailure (st : AppState) : AppState :=
  { st with
    isLoading := false,
    messages := addMessageToChat st.messages ⟨Role.agent, apologyText, false⟩ }

/-- The outcome of `clearChat`: the new state and whether the failure alert
(app.js:555) was shown. -/
structure ClearResult where
  st : AppState
  alerted : Bool
deriving DecidableEq, Repr

/-- `clearChat` (app.js:502-557): abort if the confirmation dialog is
declined; issue DELETE `/api/chat/session/{session_id}`; only when it
succeeds, re-seed the transcript with the welcome bubble, empty the
recommendation store (`updateRecommendations([])`), clear the preference
panel (`updatePreferencesDisplay({})`), drop the stored id and re-derive a
fresh session id; when the DELETE fails, change nothing and show the alert. -/
def clearChat (st : AppState) (confirmed : Bool) (deleteOk : Bool)
    (fresh : String) : ClearResult :=
  if confirmed = false then ⟨st, false⟩
  else if deleteOk then
    let st1 := { st with messages := [welcomeMessage] }
    let st2 := updateRecommendations st1 []
    let st3 := updatePreferencesDisplay st2 []
    let st4 := { st3 with localStore := none }
    let pr := getOrCreateSessionId st4.localStore fresh
    ⟨{ st4 with sessionId := pr.1, localStore := pr.2 }, false⟩
  else ⟨st, true⟩

/-! ## Concrete values used by the claim theorems and witnesses -/

/-- A recommendation carrying a nested property object, as returned by a
chat turn. -/
def recStale : Recommendation :=
  ⟨some { emptyProperty with
            external_id := some "stale1"
            location := "Leeds"
            price := some 450000
            platform := some "rightmove" },
    emptyProperty⟩

/-- The success payload of a send that was outstanding across a reset. -/
def staleData : ChatResponse :=
  ⟨"Here are some matches", some [recStale], none⟩

/-- Initial state for the stale-send scenario: idle client on session
`session_old` with text typed into the input box. -/
def stC1 : AppState :=
  ⟨"session_old", some "session_old", false, [], [], [], 0,
    [welcomeMessage], "find me a flat"⟩

/-- A client with a send already in flight and fresh input typed. -/
def stBusy : AppState :=
  ⟨"session_a", some "session_a", true, [], [], [], 0,
    [welcomeMessage], "another message"⟩

/-- A recommendation shown before a reset is attempted. -/
def recKept : Recommendation :=
  ⟨some { emptyProperty with
            external_id := some "kept1"
            location := "Oxford"
            price := some 600000 },
    emptyProperty⟩

/-- A mid-conversation state used for the reset-failure scenario. -/
def stC3 : AppState :=
  ⟨"session_old", some "session_old", false, [recKept], [], [], 1,
    [⟨Role.user, "hello", false⟩, ⟨Role.agent, "hi", false⟩], ""⟩

/-- First-turn recommendation payload. -/
def recA : Recommendation :=
  ⟨some { emptyProperty with
            external_id := some "a1"
            location := "Hackney"
            price := some 425000 },
    emptyProperty⟩

/-- Second-turn recommendation payload, first entry. -/
def recB : Recommendation :=
  ⟨some { emptyProperty with
            external_id := some "b1"
            location := "Camden"
            price := some 510000 },
    emptyProperty⟩

/-- Second-turn recommendation payload, second entry. -/
def recC : Recommendation :=
  ⟨some { emptyProperty with
            external_id := some "c1"
            location := "Soho"
            price := some 730000 },
    emptyProperty⟩

/-- First chat turn: one recommendation. -/
def dTurn1 : ChatResponse := ⟨"first reply", some [recA], none⟩

/-- Second chat turn: two different recommendations. -/
def dTurn2 : ChatResponse := ⟨"second reply", some [recB, recC], none⟩

/-- An in-flight client state with empty stores. -/
def stTurns : AppState :=
  ⟨"session_a", some "session_a", true, [], [], [], 0, [], ""⟩

/-- A recommendation without a nested property object: the payload object
itself is property-shaped. -/
def flatRec : Recommendation :=
  ⟨none,
    { emptyProperty with
        external_id := some "prop1"
        location := "London"
        price := some 350000
        platform := some "zoopla" }⟩

/-- A nested-shape recommendation sharing the panel with `flatRec`. -/
def nestedRec : Recommendation :=
  ⟨some { emptyProperty with
            external_id := some "prop2"
            location := "Bristol"
            price := some 280000 },
    emptyProperty⟩

/-- A client displaying one flat-shaped and one nested-shaped card. -/
def stC7 : AppState :=
  ⟨"session_a", some "session_a", false, [flatRec, nestedRec], [], [], 2,
    [], ""⟩

/-- A response whose `extracted_preferences` field is present but empty. -/
def dataC8 : ChatResponse := ⟨"noted", none, some []⟩

/-- An in-flight client state for the preference-refresh scenario. -/
def stC8 : AppState :=
  ⟨"session_a", some "session_a", true, [], [], [], 0, [], ""⟩

/-- An idle client state on an established session. -/
def stC9 : AppState :=
  ⟨"session_old", some "session_old", false, [], [], [], 0,
    [welcomeMessage], ""⟩

/-- An in-flight state showing one recommendation, for the frame claim. -/
def stC10 : AppState :=
  ⟨"session_a", some "session_a", true, [recA], [], [], 1, [], ""⟩

/-- A successful turn whose recommendation list is present but empty. -/
def dataC10 : ChatResponse := ⟨"nothing new", some [], some ["budget"]⟩

/-! ## Claim theorems -/

/-- C1: the claim says a success response of a send that was outstanding
across a session reset is discarded because the completion handler checks
the session id. The code has no such check (app.js:113-129 applies
`data.recommendations` unconditionally): starting a send on `session_old`,
completing a reset to `session_new` (which empties the stores), and then
letting the old send succeed repopulates the recommendation store of the
reset session with the stale payload. -/
theorem stale_send_repopulates_after_reset :
    (sendStart stC1).2 = some ⟨"find me a flat", "session_old"⟩
    ∧ (sendStart stC1).1.isLoading = true
    ∧ (clearChat (sendStart stC1).1 true true "session_new").st.sessionId
        = "session_new"
    ∧ (clearChat (sendStart stC1).1 true true
        "session_new").st.currentRecommendations = []
    ∧ (sendCompleteSuccess
        (clearChat (sendStart stC1).1 true true "session_new").st
        staleData).1.currentRecommendations = [recStale]
    ∧ "session_new" ≠ "session_old" := by
  decide

/-- C2: `sendMessage` is a no-op — state unchanged and no request issued —
whenever the trimmed input is empty or a send is already in flight
(app.js:88). -/
theorem sendMessage_single_flight_noop (st : AppState)
    (h : jsTrim st.inputValue = "" ∨ st.isLoading = true) :
    sendStart st = (st, none) := by
  unfold sendStart
  rcases h with h | h <;> simp [h]

/-- C2 witness: with a send in flight and non-blank input typed, a second
send changes nothing and issues no request. -/
theorem sendMessage_single_flight_noop_witness :
    sendStart stBusy = (stBusy, none) :=
  sendMessage_single_flight_noop stBusy (Or.inr rfl)

/-- C3 counterexample: when the DELETE fails, `clearChat` leaves the whole
state unchanged — the session id is not re-derived, the transcript is not
re-seeded, the recommendation store keeps its entry — and only the alert is
shown (app.js:549-556), contradicting the claim that the local reset
completes regardless of the delete outcome. -/
theorem clearChat_failure_keeps_state :
    clearChat stC3 true false "session_new" = ⟨stC3, true⟩
    ∧ stC3.sessionId = "session_old"
    ∧ stC3.currentRecommendations ≠ []
    ∧ stC3.messages ≠ [welcomeMessage] := by
  decide

/-- C3 amended: once confirmed, the local reset — welcome-re-seeded
transcript, emptied recommendation store and badge, cleared preference panel
(the cached preference map is left as is), fresh session id — happens only
when the backend delete succeeds; when the delete fails nothing local
changes and the failure alert is shown; without confirmation nothing at all
happens. -/
theorem clearChat_local_reset_on_success (st : AppState) (fresh : String) :
    ((clearChat st true true fresh).st.messages = [welcomeMessage]
      ∧ (clearChat st true true fresh).st.currentRecommendations = []
      ∧ (clearChat st true true fresh).st.recCountBadge = 0
      ∧ (clearChat st true true fresh).st.displayedPreferences = []
      ∧ (clearChat st true true fresh).st.currentPreferences
          = st.currentPreferences
      ∧ (clearChat st true true fresh).st.sessionId = fresh
      ∧ (clearChat st true true fresh).alerted = false)
    ∧ clearChat st true false fresh = ⟨st, true⟩
    ∧ (∀ dok : Bool, clearChat st false dok fresh = ⟨st, false⟩) :=
  ⟨⟨rfl, rfl, rfl, rfl, rfl, rfl, rfl⟩, rfl, fun _ => rfl⟩

/-- C4: the failure continuation of a send appends exactly the fixed apology
agent message to the transcript and changes nothing else — recommendation
and preference stores, badge and session id are untouched — and clears the
single-flight flag, as the success continuation also does on its exit
(app.js:113-135). -/
theorem send_failure_apology_and_ready (st : AppState) (data : ChatResponse) :
    (sendCompleteFailure st).messages
        = st.messages ++ [⟨Role.agent, apologyText, false⟩]
    ∧ (sendCompleteFailure st).currentRecommendations
        = st.currentRecommendations
    ∧ (sendCompleteFailure st).currentPreferences = st.currentPreferences
    ∧ (sendCompleteFailure st).displayedPreferences = st.displayedPreferences
    ∧ (sendCompleteFailure st).recCountBadge = st.recCountBadge
    ∧ (sendCompleteFailure st).sessionId = st.sessionId
    ∧ (sendCompleteFailure st).isLoading = false
    ∧ (sendCompleteSuccess st data).1.isLoading = false := by
  refine ⟨?_, rfl, rfl, rfl, rfl, rfl, rfl, ?_⟩
  · simp [sendCompleteFailure, addMessageToChat]
  · unfold sendCompleteSuccess
    cases data.recommendations with
    | none => rfl
    | some recs =>
      by_cases hl : 0 < recs.length
      · simp [hl, updateRecommendations]
      · simp [hl]

/-- C5: a successful turn carrying a non-empty recommendation list replaces
the store wholesale; after two such turns the store and its count badge hold
exactly the second payload in server order, never a merge (app.js:122-124,
192-197). -/
theorem recommendations_replaced_wholesale (st : AppState)
    (d1 d2 : ChatResponse) (r1 r2 : List Recommendation)
    (h1 : d1.recommendations = some r1) (h2 : r1 ≠ [])
    (h3 : d2.recommendations = some r2) (h4 : r2 ≠ []) :
    (sendCompleteSuccess st d1).1.currentRecommendations = r1
    ∧ (sendCompleteSuccess (sendCompleteSuccess st d1).1
        d2).1.currentRecommendations = r2
    ∧ (sendCompleteSuccess (sendCompleteSuccess st d1).1 d2).1.recCountBadge
        = r2.length := by
  have l1 : 0 < r1.length := List.length_pos.mpr h2
  have l2 : 0 < r2.length := List.length_pos.mpr h4
  refine ⟨?_, ?_, ?_⟩ <;>
    simp [sendCompleteSuccess, h1, h3, l1, l2, updateRecommendations]

/-- C5 witness: two concrete turns; the store ends with exactly the second
payload and its count. -/
theorem recommendations_replaced_wholesale_witness :
    (sendCompleteSuccess stTurns dTurn1).1.currentRecommendations = [recA]
    ∧ (sendCompleteSuccess (sendCompleteSuccess stTurns dTurn1).1
        dTurn2).1.currentRecommendations = [recB, recC]
    ∧ (sendCompleteSuccess (sendCompleteSuccess stTurns dTurn1).1
        dTurn2).1.recCountBadge = [recB, recC].length :=
  recommendations_replaced_wholesale stTurns dTurn1 dTurn2 [recA] [recB, recC]
    rfl (by decide) rfl (by decide)

/-- C6: `formatPrice` maps absent or zero to the `POA` sentinel, values
under a thousand to the literal pound amount, values in the thousands tier
to a nearest-thousands (round-half-up, not truncated) `k` figure — so 1500
gives `£2k` — and the million tier to a one-decimal `M` figure — so 2300000
gives `£2.3M` (app.js:244-254). -/
theorem formatPrice_tiers :
    formatPrice none = "POA"
    ∧ formatPrice (some 0) = "POA"
    ∧ formatPrice (some 999) = "£999"
    ∧ formatPrice (some 1500) = "£2k"
    ∧ formatPrice (some 2300000) = "£2.3M"
    ∧ (∀ p : Nat, 0 < p → p < 1000 → formatPrice (some p) = "£" ++ toString p)
    ∧ (∀ p : Nat, 1000 ≤ p → p < 1000000 →
        ∃ n : Nat, formatPrice (some p) = "£" ++ toString n ++ "k"
          ∧ n * 1000 ≤ p + 500 ∧ p < n * 1000 + 500)
    ∧ (∀ p : Nat, 1000000 ≤ p →
        ∃ n : Nat, formatPrice (some p)
            = "£" ++ toString (n / 10) ++ "." ++ toString (n % 10) ++ "M"
          ∧ n * 100000 ≤ p + 50000 ∧ p < n * 100000 + 50000) := by
  refine ⟨rfl, rfl, rfl, rfl, rfl, ?_, ?_, ?_⟩
  · intro p h0 hlt
    have e0 : ¬(p = 0) := by omega
    have eM : ¬(1000000 ≤ p) := by omega
    have ek : ¬(1000 ≤ p) := by omega
    simp [formatPrice, e0, eM, ek]
  · intro p hk hM
    have e0 : ¬(p = 0) := by omega
    have eM : ¬(1000000 ≤ p) := by omega
    refine ⟨(p + 500) / 1000, ?_, ?_, ?_⟩
    · simp [formatPrice, e0, eM, hk]
    · omega
    · omega
  · intro p hM
    have e0 : ¬(p = 0) := by omega
    refine ⟨(p + 50000) / 100000, ?_, ?_, ?_⟩
    · simp [formatPrice, e0, hM]
    · omega
    · omega

/-- C6 witness: the tier clauses instantiated at 750, 1500 and 2300000. -/
theorem formatPrice_tiers_witness :
    formatPrice (some 750) = "£" ++ toString 750
    ∧ (∃ n : Nat, formatPrice (some 1500) = "£" ++ toString n ++ "k"
        ∧ n * 1000 ≤ 1500 + 500 ∧ 1500 < n * 1000 + 500)
    ∧ (∃ n : Nat, formatPrice (some 2300000)
          = "£" ++ toString (n / 10) ++ "." ++ toString (n % 10) ++ "M"
        ∧ n * 100000 ≤ 2300000 + 50000 ∧ 2300000 < n * 100000 + 50000) :=
  ⟨formatPrice_tiers.2.2.2.2.2.1 750 (by decide) (by decide),
    formatPrice_tiers.2.2.2.2.2.2.1 1500 (by decide) (by decide),
    formatPrice_tiers.2.2.2.2.2.2.2 2300000 (by decide)⟩

/-- C7: the claim says every recommendation in the current set is found by
`findById` under the identifier displayed on its card. The displayed id
falls back to the payload object itself (`rec.property || rec`, app.js:215)
but the lookup reads only the nested `rec.property` (app.js:384-386): a
flat-shaped recommendation displays id `prop1` yet the lookup misses it and
the detail modal never opens, while a nested-shaped one is found, and ids
outside the current set yield no modal. -/
theorem flat_recommendation_lookup_misses :
    displayedId flatRec = some "prop1"
    ∧ flatRec ∈ stC7.currentRecommendations
    ∧ showPropertyDetails stC7 "prop1" = none
    ∧ displayedId nestedRec = some "prop2"
    ∧ showPropertyDetails stC7 "prop2" = some nestedRec
    ∧ showPropertyDetails stC7 "prop999" = none := by
  decide

/-- C8 counterexample: a response whose `extracted_preferences` field is
present but empty triggers no preference refresh (app.js:127 also requires
non-zero length), contradicting the claim that presence alone triggers the
refresh. -/
theorem present_empty_preferences_no_refresh :
    dataC8.extracted_preferences = some []
    ∧ (sendCompleteSuccess stC8 dataC8).2 = false := by
  decide

/-- C8 amended: a successful turn triggers the separate preference-refresh
GET exactly when `extracted_preferences` is present and non-empty. -/
theorem preference_refresh_iff_present_nonempty (st : AppState)
    (data : ChatResponse) :
    (sendCompleteSuccess st data).2 = true
      ↔ ∃ ps, data.extracted_preferences = some ps ∧ ps ≠ [] := by
  unfold sendCompleteSuccess
  cases h : data.extracted_preferences with
  | none => simp [h]
  | some ps => simp [h, List.length_pos]

/-- C9: identity retrieval is idempotent — a second call on the storage left
by the first returns the same id — and a confirmed, successful reset
re-derives the freshly synthesized id, persists it, and (whenever the fresh
id differs from the old one, which the time-based prefix and random suffix
provide) the retrieved id differs from the prior one (app.js:14-21,
545-547). -/
theorem sessionId_idempotent_and_reset_fresh :
    (∀ (store : Option String) (f1 f2 : String),
      (getOrCreateSessionId (getOrCreateSessionId store f1).2 f2).1
        = (getOrCreateSessionId store f1).1)
    ∧ (∀ (st : AppState) (fresh : String), fresh ≠ st.sessionId →
        (clearChat st true true fresh).st.sessionId = fresh
        ∧ (clearChat st true true fresh).st.localStore = some fresh
        ∧ (clearChat st true true fresh).st.sessionId ≠ st.sessionId) := by
  constructor
  · intro store f1 f2
    cases store <;> rfl
  · intro st fresh h
    exact ⟨rfl, rfl, h⟩

/-- C9 witness: idempotence on a stored id, and a reset to a synthesized id
distinct from the old one. -/
theorem sessionId_idempotent_and_reset_fresh_witness :
    (getOrCreateSessionId
        (getOrCreateSessionId (some "session_a") "f1").2 "f2").1
      = (getOrCreateSessionId (some "session_a") "f1").1
    ∧ (clearChat stC9 true true (mkSessionId 2 "x")).st.sessionId
        ≠ stC9.sessionId :=
  ⟨sessionId_idempotent_and_reset_fresh.1 (some "session_a") "f1" "f2",
    (sessionId_idempotent_and_reset_fresh.2 stC9 (mkSessionId 2 "x")
      (by decide)).2.2⟩

/-- C10: a successful turn whose recommendation field is absent or an empty
list leaves the recommendation store and its count badge exactly as they
were (app.js:122-124 guards the replacement on a non-empty list). -/
theorem empty_recommendations_keep_store (st : AppState)
    (data : ChatResponse)
    (h : data.recommendations = none ∨ data.recommendations = some []) :
    (sendCompleteSuccess st data).1.currentRecommendations
        = st.currentRecommendations
    ∧ (sendCompleteSuccess st data).1.recCountBadge = st.recCountBadge := by
  rcases h with h | h <;> constructor <;> simp [sendCompleteSuccess, h]

/-- C10 witness: an empty payload leaves a non-empty store and its badge
untouched. -/
theorem empty_recommendations_keep_store_witness :
    (sendCompleteSuccess stC10 dataC10).1.currentRecommendations
        = stC10.currentRecommendations
    ∧ (sendCompleteSuccess stC10 dataC10).1.recCountBadge
        = stC10.recCountBadge :=
  empty_recommendations_keep_store stC10 dataC10 (Or.inr rfl)

end REAgent
